import Mathlib

/-!
Verification development for the SeedUp repository: a torrent downloader
(`torrent_downloader.py`) with an optional Google Drive upload stage
(`gdrive_uploader.py`, `main.py`, `config.py`).

The shallow embedding below translates the relevant Python functions into
Lean. The remote Drive service is modelled as an explicit state (the list of
remote objects) threaded through the operations, together with a trace of the
remote-API calls each operation issues; external failure modes (HTTP errors
on lookups, uploads and folder creation) are supplied by an oracle
(`DriveEnv`). Local filesystem trees are the inductive `FSEntry`.
-/

namespace SeedUp

/-- Constant from config.py line 15 (`MAX_RETRIES = 3`). It is imported by
no other source file: `gdrive_uploader.py` imports only `get_logger` from
config. -/
def MAX_RETRIES : ℕ := 3

/-- Constant from config.py line 16 (`RETRY_DELAY = 2`, "seconds base delay
for exponential backoff"). Also unused by the sources. -/
def RETRY_DELAY : ℕ := 2

/-- Constant from config.py line 18 (`MAX_WORKERS = 3`). -/
def MAX_WORKERS : ℕ := 3

/-- One object stored in Drive: its id, its name, the id of its parent
folder, and whether it is a folder (mimeType application/vnd.google-apps.folder). -/
structure RemoteObject where
  rid : ℕ
  name : String
  parent : ℕ
  isFolder : Bool
deriving DecidableEq, Repr

/-- The remote Drive state: the objects in creation order plus the next
fresh id the service will assign. -/
structure RemoteState where
  objects : List RemoteObject
  nextId : ℕ
deriving DecidableEq, Repr

def emptyRemote : RemoteState := ⟨[], 0⟩

/-- One remote-API call, as issued by the uploader: the two `files().list`
queries (non-mutating) and the two `files().create` calls (mutating). -/
inductive RemoteCall where
  | listFiles (name : String) (parent : ℕ)
  | listFolders (name : String) (parent : ℕ)
  | createFileCall (name : String) (parent : ℕ)
  | createFolderCall (name : String) (parent : ℕ)
deriving DecidableEq, Repr

/-- Whether a remote call mutates the remote state (a `files().create`). -/
def RemoteCall.isMutating : RemoteCall → Bool
  | .createFileCall _ _ => true
  | .createFolderCall _ _ => true
  | _ => false

/-- The name a remote call is about. -/
def RemoteCall.about : RemoteCall → String
  | .listFiles n _ => n
  | .listFolders n _ => n
  | .createFileCall n _ => n
  | .createFolderCall n _ => n

/-- External failure oracle for the Drive service: which lookups raise
`HttpError` (gdrive_uploader.py treats those as "not found"), which file
uploads fail, and which folder creations fail. -/
structure DriveEnv where
  fileLookupErr : String → ℕ → Bool
  folderLookupErr : String → ℕ → Bool
  fileUploadFails : String → ℕ → Bool
  folderCreateFails : String → ℕ → Bool

/-- The fully reliable remote: no lookup errors, no upload or creation
failures. -/
def reliableEnv : DriveEnv :=
  ⟨fun _ _ => false, fun _ _ => false, fun _ _ => false, fun _ _ => false⟩

/-- SimpleDriveUploader.file_exists (gdrive_uploader.py lines 137-166): an
exact-name, same-parent, not-trashed `files().list` query with pageSize=1 —
it does NOT restrict the mimeType, so it can also match a folder. An
`HttpError` is logged and treated as "not found" (returns None). -/
def file_exists (env : DriveEnv) (name : String) (parent : ℕ)
    (s : RemoteState) : Option RemoteObject :=
  if env.fileLookupErr name parent then none
  else s.objects.find? (fun o => o.name == name && o.parent == parent)

/-- SimpleDriveUploader.folder_exists (gdrive_uploader.py lines 168-198):
like file_exists but restricted to the folder mimeType; returns the folder
id. An `HttpError` is treated as "not found". -/
def folder_exists (env : DriveEnv) (name : String) (parent : ℕ)
    (s : RemoteState) : Option ℕ :=
  if env.folderLookupErr name parent then none
  else
    (s.objects.find? (fun o => o.name == name && o.parent == parent && o.isFolder)).map
      (fun o => o.rid)

/-- The `files().create` call of upload_file: appends a new non-folder
object with a fresh id and returns the id. -/
def createFileRemote (name : String) (parent : ℕ) (s : RemoteState) :
    ℕ × RemoteState :=
  (s.nextId, ⟨s.objects ++ [⟨s.nextId, name, parent, false⟩], s.nextId + 1⟩)

/-- The `files().create` call of create_folder: appends a new folder object
with a fresh id and returns the id. -/
def createFolderRemote (name : String) (parent : ℕ) (s : RemoteState) :
    ℕ × RemoteState :=
  (s.nextId, ⟨s.objects ++ [⟨s.nextId, name, parent, true⟩], s.nextId + 1⟩)

/-- SimpleDriveUploader.upload_file (gdrive_uploader.py lines 200-272): when
skip_existing is set it first re-checks file_exists and returns the existing
id; otherwise it issues ONE resumable-upload attempt (the
`request.next_chunk()` loop). An `HttpError`/exception during the attempt
makes the function return None — there is no retry loop around the attempt
(MAX_RETRIES and RETRY_DELAY of config.py are never consulted). Returns the
file id (existing or fresh) or none, the new state and the calls issued. -/
def upload_file (env : DriveEnv) (skipExisting : Bool) (name : String)
    (parent : ℕ) (s : RemoteState) :
    Option ℕ × RemoteState × List RemoteCall :=
  let pre : Option RemoteObject :=
    if skipExisting then file_exists env name parent s else none
  let preCalls : List RemoteCall :=
    if skipExisting then [RemoteCall.listFiles name parent] else []
  match pre with
  | some o => (some o.rid, s, preCalls)
  | none =>
    if env.fileUploadFails name parent then
      (none, s, preCalls ++ [RemoteCall.createFileCall name parent])
    else
      let (fid, s') := createFileRemote name parent s
      (some fid, s', preCalls ++ [RemoteCall.createFileCall name parent])

/-- SimpleDriveUploader.create_folder (gdrive_uploader.py lines 274-307):
when skip_existing is set, an existing same-named folder under the parent is
reused; otherwise a folder is created. Returns the folder id or none on a
creation error. -/
def create_folder (env : DriveEnv) (skipExisting : Bool) (name : String)
    (parent : ℕ) (s : RemoteState) :
    Option ℕ × RemoteState × List RemoteCall :=
  let pre : Option ℕ :=
    if skipExisting then folder_exists env name parent s else none
  let preCalls : List RemoteCall :=
    if skipExisting then [RemoteCall.listFolders name parent] else []
  match pre with
  | some fid => (some fid, s, preCalls)
  | none =>
    if env.folderCreateFails name parent then
      (none, s, preCalls ++ [RemoteCall.createFolderCall name parent])
    else
      let (fid, s') := createFolderRemote name parent s
      (some fid, s', preCalls ++ [RemoteCall.createFolderCall name parent])

/-- A node of the local filesystem tree being uploaded: a file (name, byte
size) or a directory (name, children in `os.listdir` order). -/
inductive FSEntry where
  | file (name : String) (size : ℕ)
  | dir (name : String) (children : List FSEntry)

/-- The basename of a tree node. -/
def FSEntry.name : FSEntry → String
  | .file n _ => n
  | .dir n _ => n

/-- The triple count_items returns: file count, folder count, total bytes. -/
structure ItemStats where
  files : ℕ
  folders : ℕ
  total_size : ℕ
deriving DecidableEq, Repr

def ItemStats.add (a b : ItemStats) : ItemStats :=
  ⟨a.files + b.files, a.folders + b.folders, a.total_size + b.total_size⟩

mutual

/-- SimpleDriveUploader.count_items (gdrive_uploader.py lines 309-344): a
single file counts as one file of its size; a directory is walked with
`os.walk`, counting every nested file and every nested directory (the root
itself is not counted) and summing file sizes. -/
def count_items : FSEntry → ItemStats
  | .file _ sz => ⟨1, 0, sz⟩
  | .dir _ cs => count_items_list cs

/-- The walk over a directory's children: a child file adds one file, a
child directory adds one folder plus its own walk. -/
def count_items_list : List FSEntry → ItemStats
  | [] => ⟨0, 0, 0⟩
  | .file _ sz :: cs => ItemStats.add ⟨1, 0, sz⟩ (count_items_list cs)
  | .dir _ cs' :: cs =>
    ItemStats.add (ItemStats.add ⟨0, 1, 0⟩ (count_items_list cs')) (count_items_list cs)

end

/-- The aggregated outcome set of upload_to_drive: the 'success', 'failed'
and 'skipped' path lists. -/
structure Results where
  success : List String
  failed : List String
  skipped : List String
deriving DecidableEq, Repr

/-- Concatenation of two outcome sets, as the directory branch of
upload_to_drive extends each list. -/
def Results.merge (a b : Results) : Results :=
  ⟨a.success ++ b.success, a.failed ++ b.failed, a.skipped ++ b.skipped⟩

/-- The per-file outcome tags recorded for a transfer item. -/
inductive UploadOutcome where
  | success
  | failed
  | skipped
deriving DecidableEq, Repr

/-- The file branch of upload_to_drive (gdrive_uploader.py lines 375-387):
with skip_existing, a file_exists hit records a skip; otherwise upload_file
is attempted and the outcome follows the returned id. -/
def process_file (env : DriveEnv) (skipExisting : Bool) (name : String)
    (parent : ℕ) (s : RemoteState) :
    UploadOutcome × RemoteState × List RemoteCall :=
  let pre : Option RemoteObject :=
    if skipExisting then file_exists env name parent s else none
  let preCalls : List RemoteCall :=
    if skipExisting then [RemoteCall.listFiles name parent] else []
  match pre with
  | some _ => (.skipped, s, preCalls)
  | none =>
    let (fid, s', calls) := upload_file env skipExisting name parent s
    match fid with
    | some _ => (.success, s', preCalls ++ calls)
    | none => (.failed, s', preCalls ++ calls)

/-- The singleton outcome set recording `o` for `path`. -/
def outcomeResults (o : UploadOutcome) (path : String) : Results :=
  match o with
  | .success => ⟨[path], [], []⟩
  | .failed => ⟨[], [path], []⟩
  | .skipped => ⟨[], [], [path]⟩

mutual

/-- SimpleDriveUploader.upload_to_drive (gdrive_uploader.py lines 346-413)
on an existing path: a file takes the file branch; a directory is
created-or-reused via create_folder — on failure the directory itself is
recorded as the single failed entry and the subtree is not visited, on
success every child is uploaded under the new folder id and the child
outcome sets are concatenated in discovery order. `path` is the local path
of the node (child paths extend it with "/" and the child's name). -/
def upload_to_drive (env : DriveEnv) (skipExisting : Bool) :
    FSEntry → String → ℕ → RemoteState → Results × RemoteState × List RemoteCall
  | .file name _, path, parent, s =>
    let (o, s', calls) := process_file env skipExisting name parent s
    (outcomeResults o path, s', calls)
  | .dir name cs, path, parent, s =>
    let (fid?, s1, calls1) := create_folder env skipExisting name parent s
    match fid? with
    | none => (⟨[], [path], []⟩, s1, calls1)
    | some fid =>
      let (r, s2, calls2) := upload_children env skipExisting cs path fid s1
      (r, s2, calls1 ++ calls2)

/-- The `for item in os.listdir(local_path)` loop of upload_to_drive:
children are processed sequentially, threading the remote state and
concatenating the outcome sets. -/
def upload_children (env : DriveEnv) (skipExisting : Bool) :
    List FSEntry → String → ℕ → RemoteState → Results × RemoteState × List RemoteCall
  | [], _, _, s => (⟨[], [], []⟩, s, [])
  | c :: cs, path, parent, s =>
    let cpath := path ++ "/" ++ c.name
    let (r1, s1, t1) := upload_to_drive env skipExisting c cpath parent s
    let (r2, s2, t2) := upload_children env skipExisting cs path parent s1
    (r1.merge r2, s2, t1 ++ t2)

end

/-- The keyword options upload_to_google_drive is invoked with by main.py's
handle_upload (main.py lines 211-220): skip_existing, parallel,
include/exclude patterns, dry_run and use_progress. -/
structure UploadKwargs where
  skip_existing : Bool
  parallel : Bool
  include_patterns : List String
  exclude_patterns : List String
  dry_run : Bool
  use_progress : Bool
deriving Repr

/-- upload_to_google_drive (gdrive_uploader.py lines 433-462): of all the
keyword options it reads only `skip_existing` (and the drive service); the
`parallel`, `include_patterns`, `exclude_patterns`, `dry_run` and
`use_progress` keywords land in `**kwargs` and are never consulted. It then
runs SimpleDriveUploader.upload_to_drive and prints the summary. -/
def upload_to_google_drive (kw : UploadKwargs) (env : DriveEnv)
    (tree : FSEntry) (path : String) (folderId : ℕ) (s : RemoteState) :
    Results × RemoteState × List RemoteCall :=
  upload_to_drive env kw.skip_existing tree path folderId s

/-- The attempt-indexed view of upload_file's transfer step
(gdrive_uploader.py lines 228-272): `attemptFails i` says whether the i-th
chunked-upload attempt of this transfer would raise. The source wraps the
`next_chunk` loop in a single try/except and returns None on the first
failure: it consults only attempt 0, makes no further attempt and never
sleeps. Returns (file id or none, attempts issued, backoff waits slept). -/
def upload_file_attempts (skipExisting : Bool) (existing : Option ℕ)
    (attemptFails : ℕ → Bool) (freshId : ℕ) : Option ℕ × ℕ × List ℕ :=
  match (if skipExisting then existing else none) with
  | some fid => (some fid, 0, [])
  | none =>
    if attemptFails 0 then (none, 1, []) else (some freshId, 1, [])

/-!
Embedding of torrent_downloader.py. The libtorrent engine is external: its
observable behaviour during one download (whether a .torrent file parses,
whether add_torrent succeeds, the resolved torrent name, how many polling
iterations run until the seeding state) is supplied by a `TorrentEnv`
oracle, and the arrival of a user interrupt (KeyboardInterrupt) is a
schedule `InterruptAt`.
-/

/-- Python's `str.startswith`: prefix test on the character sequence. -/
def strStartsWith (s pre : String) : Bool :=
  pre.data.isPrefixOf s.data

/-- Python's `str.endswith`: suffix test on the character sequence. -/
def strEndsWith (s suf : String) : Bool :=
  suf.data.isSuffixOf s.data

/-- The exception kinds load_session distinguishes: its except clause
catches `RuntimeError` and `ValueError` only. -/
inductive PyError where
  | runtimeError
  | valueError
  | otherError
deriving DecidableEq, Repr

/-- A libtorrent session as load_session produces one: a fresh
`lt.session()` or one restored from decoded state. -/
inductive LtSession (St : Type) where
  | fresh
  | loaded (st : St)
deriving DecidableEq

/-- load_session (torrent_downloader.py lines 33-51). `sessionFile` is the
session file's content (`none` = the file does not exist); `bdecode` is the
engine's `lt.bdecode` + `ses.load_state` step, which raises on structurally
invalid data. An empty file raises ValueError inside the try; the except
clause catches RuntimeError and ValueError, removes the file and falls
through to `return lt.session()` — any other exception kind would
propagate. -/
def load_session (St : Type) (bdecode : List ℕ → Except PyError St)
    (sessionFile : Option (List ℕ)) : Except PyError (LtSession St) :=
  match sessionFile with
  | none => .ok .fresh
  | some bytesData =>
    let attempt : Except PyError (LtSession St) :=
      if bytesData.isEmpty then .error .valueError
      else
        match bdecode bytesData with
        | .error e => .error e
        | .ok st => .ok (.loaded st)
    match attempt with
    | .ok ses => .ok ses
    | .error .runtimeError => .ok .fresh
    | .error .valueError => .ok .fresh
    | .error .otherError => .error .otherError

/-- The ETA rendering of download_torrent's polling loop
(torrent_downloader.py lines 130-145). With a positive rate the source
computes `eta_seconds = remaining / download_rate` as a real number and
prints `int(...)` truncations; all quantities are non-negative integers, so
each printed component equals the floor division computed here (for
q = remaining/rate ≥ 0: int(q) = ⌊q⌋ = remaining/rate in ℕ,
int(q/60) = ⌊q⌋/60, int(q%60) = ⌊q⌋%60, int(q/3600) = ⌊q⌋/3600,
int((q%3600)/60) = (⌊q⌋%3600)/60, and the ≤-comparisons with the integers
60 and 3600 agree between q and ⌊q⌋). -/
def eta_string (downloadRate totalWanted totalDone : ℕ) : String :=
  if downloadRate > 0 then
    let remaining := totalWanted - totalDone
    let etaSeconds := remaining / downloadRate
    if etaSeconds < 60 then
      toString etaSeconds ++ "s"
    else if etaSeconds < 3600 then
      toString (etaSeconds / 60) ++ "m " ++ toString (etaSeconds % 60) ++ "s"
    else
      toString (etaSeconds / 3600) ++ "h " ++ toString ((etaSeconds % 3600) / 60) ++ "m"
  else "N/A"

/-- The engine-side behaviour of one download_torrent invocation:
whether the source file exists on disk, whether lt.bdecode/lt.torrent_info
accept it, whether ses.add_torrent succeeds, the torrent's resolved name,
the number of polling iterations until the seeding state, and the epoch
second at the first polling iteration (for the `int(time.time()) % 10`
checkpoint test). -/
structure TorrentEnv where
  fileOnDisk : String → Bool
  parseOk : String → Bool
  addOk : Bool
  torrentName : String
  pollTicks : ℕ
  epoch0 : ℕ

/-- When the user's KeyboardInterrupt arrives: while blocked in the
wait-for-metadata loop (lines 113-116), during polling iteration `tick` of
the transfer loop (inside the try of lines 125-172), or never. -/
inductive InterruptAt where
  | duringMetadataWait
  | duringPolling (tick : ℕ)
  | never
deriving DecidableEq, Repr

/-- How one download_torrent invocation ends: a normal return of the
downloaded path, a `return None` from validation/add failure, a
`return None` from the KeyboardInterrupt handler (a pause), or a
KeyboardInterrupt that propagates out of the function. -/
inductive DlOutcome where
  | completed (path : String)
  | failed
  | paused
  | raisedInterrupt
deriving DecidableEq, Repr

/-- The observable effects of one download_torrent invocation: its outcome,
whether the torrent was added to the session, and how many save_session
calls were made. -/
structure DlRun where
  outcome : DlOutcome
  torrentAdded : Bool
  saveCount : ℕ
deriving DecidableEq, Repr

/-- The saves of the polling loop's checkpoint policy over `ticks` complete
iterations: one save at each iteration whose epoch second is divisible by
10 (torrent_downloader.py line 164). -/
def periodicSaves (epoch0 ticks : ℕ) : ℕ :=
  (List.range ticks).countP (fun t => (epoch0 + t) % 10 == 0)

/-- The phase of download_torrent after a successful add_torrent
(torrent_downloader.py lines 113-186): the metadata wait loop runs OUTSIDE
the try/except KeyboardInterrupt, so an interrupt there propagates with no
save; the polling loop runs inside it, so an interrupt at iteration `k`
(after the `min k pollTicks` completed iterations' periodic saves) is
caught, saves the session once and returns None; with no interrupt the loop
completes, the session file is removed and the joined path is returned. -/
def awaitAndPoll (env : TorrentEnv) (itr : InterruptAt) (downloadPath : String) : DlRun :=
  match itr with
  | .duringMetadataWait => ⟨.raisedInterrupt, true, 0⟩
  | .duringPolling k =>
    if k < env.pollTicks then
      ⟨.paused, true, periodicSaves env.epoch0 k + 1⟩
    else
      ⟨.completed (downloadPath ++ "/" ++ env.torrentName), true,
        periodicSaves env.epoch0 env.pollTicks⟩
  | .never =>
    ⟨.completed (downloadPath ++ "/" ++ env.torrentName), true,
      periodicSaves env.epoch0 env.pollTicks⟩

/-- download_torrent (torrent_downloader.py lines 54-186). The source
dispatch (lines 84-103): a `magnet:`-prefixed source is submitted as a url;
a `.torrent`-suffixed source must exist on disk (else `return None`) and
parse (else `return None`); anything else is invalid (`return None`). A
failing add_torrent also returns None. In all early-return cases nothing
was added to the session and save_session was never called. -/
def download_torrent (env : TorrentEnv) (itr : InterruptAt)
    (source downloadPath : String) : DlRun :=
  if strStartsWith source "magnet:" then
    if env.addOk then awaitAndPoll env itr downloadPath
    else ⟨.failed, false, 0⟩
  else if strEndsWith source ".torrent" then
    if env.fileOnDisk source then
      if env.parseOk source then
        if env.addOk then awaitAndPoll env itr downloadPath
        else ⟨.failed, false, 0⟩
      else ⟨.failed, false, 0⟩
    else ⟨.failed, false, 0⟩
  else ⟨.failed, false, 0⟩

/-- State extension: the second run of the orchestrator sees every object
of the first run's final state; remote creation only appends objects, so a
run's final state extends its initial one. -/
def RemoteState.ext (s s' : RemoteState) : Prop :=
  ∃ l, s'.objects = s.objects ++ l

mutual

/-- A tree is present in the remote state under a parent id: each file's
dedup lookup succeeds, and each directory's folder lookup resolves to a
folder under whose id all children are present. The two `find?` predicates
are exactly those of file_exists and folder_exists on the reliable
environment. -/
def PresentE : FSEntry → ℕ → RemoteState → Prop
  | .file name _, parent, s =>
    (s.objects.find? (fun o => o.name == name && o.parent == parent)).isSome
  | .dir name cs, parent, s =>
    match s.objects.find? (fun o => o.name == name && o.parent == parent && o.isFolder) with
    | none => False
    | some o => PresentListE cs o.rid s

/-- All trees of a list are present under a parent id. -/
def PresentListE : List FSEntry → ℕ → RemoteState → Prop
  | [], _, _ => True
  | c :: cs, parent, s => PresentE c parent s ∧ PresentListE cs parent s

end

mutual

/-- The local paths of all files of a tree, in discovery order: what an
all-skips run records in its 'skipped' list. -/
def skipPaths : FSEntry → String → List String
  | .file _ _, path => [path]
  | .dir _ cs, path => skipPathsList cs path

/-- The local paths of all files under a children list. -/
def skipPathsList : List FSEntry → String → List String
  | [], _ => []
  | c :: cs, path => skipPaths c (path ++ "/" ++ c.name) ++ skipPathsList cs path

end

/-! Helper lemmas. -/

theorem ends_s_ne_NA (x : String) : x ++ "s" ≠ "N/A" := by
  intro h
  have hd := congrArg String.data h
  rw [String.data_append, show "s".data = ['s'] from rfl] at hd
  have hlast : (x.data ++ ['s']).getLast? = ("N/A".data).getLast? := by rw [hd]
  rw [List.getLast?_concat] at hlast
  exact absurd hlast (by decide)

theorem ends_m_ne_NA (x : String) : x ++ "m" ≠ "N/A" := by
  intro h
  have hd := congrArg String.data h
  rw [String.data_append, show "m".data = ['m'] from rfl] at hd
  have hlast : (x.data ++ ['m']).getLast? = ("N/A".data).getLast? := by rw [hd]
  rw [List.getLast?_concat] at hlast
  exact absurd hlast (by decide)

theorem find?_append_some {α : Type} (p : α → Bool) {l₁ : List α} {a : α} (l₂ : List α)
    (h : l₁.find? p = some a) : (l₁ ++ l₂).find? p = some a := by
  rw [List.find?_append, h]
  rfl

theorem RemoteState.ext_refl (s : RemoteState) : s.ext s := ⟨[], by simp⟩

theorem RemoteState.ext_trans {s t u : RemoteState} (h1 : s.ext t) (h2 : t.ext u) :
    s.ext u := by
  obtain ⟨l1, hl1⟩ := h1
  obtain ⟨l2, hl2⟩ := h2
  exact ⟨l1 ++ l2, by rw [hl2, hl1, List.append_assoc]⟩

theorem find?_stable {s s' : RemoteState} (hext : s.ext s') (p : RemoteObject → Bool)
    {o : RemoteObject} (h : s.objects.find? p = some o) : s'.objects.find? p = some o := by
  obtain ⟨l, hl⟩ := hext
  rw [hl]
  exact find?_append_some p l h

/-- The file branch on the reliable environment with skip_existing: a dedup
hit skips on the unchanged state; a miss re-checks inside upload_file and
creates the file. -/
theorem process_file_reliable_eq (name : String) (parent : ℕ) (s : RemoteState) :
    process_file reliableEnv true name parent s =
      match s.objects.find? (fun o => o.name == name && o.parent == parent) with
      | some _ => (.skipped, s, [RemoteCall.listFiles name parent])
      | none => (.success, ⟨s.objects ++ [⟨s.nextId, name, parent, false⟩], s.nextId + 1⟩,
          [RemoteCall.listFiles name parent, RemoteCall.listFiles name parent,
           RemoteCall.createFileCall name parent]) := by
  rcases h : s.objects.find? (fun o => o.name == name && o.parent == parent) with _ | o <;>
    simp [process_file, upload_file, file_exists, reliableEnv, createFileRemote, h]

/-- create_folder on the reliable environment with skip_existing: an
existing folder is reused on the unchanged state; otherwise the folder is
created with the fresh id. -/
theorem create_folder_reliable_eq (name : String) (parent : ℕ) (s : RemoteState) :
    create_folder reliableEnv true name parent s =
      match s.objects.find? (fun o => o.name == name && o.parent == parent && o.isFolder) with
      | some o => (some o.rid, s, [RemoteCall.listFolders name parent])
      | none => (some s.nextId, ⟨s.objects ++ [⟨s.nextId, name, parent, true⟩], s.nextId + 1⟩,
          [RemoteCall.listFolders name parent, RemoteCall.createFolderCall name parent]) := by
  rcases h : s.objects.find? (fun o => o.name == name && o.parent == parent && o.isFolder)
    with _ | o <;>
    simp [create_folder, folder_exists, reliableEnv, createFolderRemote, h]

theorem count_items_list_cons (c : FSEntry) (cs : List FSEntry) :
    (count_items_list (c :: cs)).files =
      (count_items c).files + (count_items_list cs).files := by
  cases c <;> simp [count_items_list, count_items, ItemStats.add]

/-- With a folder-creation oracle that never fails, create_folder always
returns an id. -/
theorem create_folder_no_fail (fle fol fuf : String → ℕ → Bool) (sk : Bool)
    (n : String) (p : ℕ) (s : RemoteState) :
    ∃ fid rest, create_folder ⟨fle, fol, fuf, fun _ _ => false⟩ sk n p s = (some fid, rest) := by
  rw [create_folder]
  dsimp only
  split
  · exact ⟨_, _, rfl⟩
  · exact ⟨_, _, rfl⟩

mutual

/-- Each file contributes exactly one outcome and a directory none of its
own, so when no folder creation fails the outcome count of a tree equals
its file count. -/
theorem upload_count_tree (fle fol fuf : String → ℕ → Bool) (sk : Bool) :
    ∀ (t : FSEntry) (path : String) (p : ℕ) (s : RemoteState),
      (upload_to_drive ⟨fle, fol, fuf, fun _ _ => false⟩ sk t path p s).1.success.length +
        (upload_to_drive ⟨fle, fol, fuf, fun _ _ => false⟩ sk t path p s).1.failed.length +
        (upload_to_drive ⟨fle, fol, fuf, fun _ _ => false⟩ sk t path p s).1.skipped.length =
        (count_items t).files
  | .file n sz, path, p, s => by
    rw [upload_to_drive, count_items]
    rcases hpf : process_file ⟨fle, fol, fuf, fun _ _ => false⟩ sk n p s with ⟨o, s', calls⟩
    cases o <;> simp [hpf, outcomeResults]
  | .dir n cs, path, p, s => by
    rw [upload_to_drive, count_items]
    obtain ⟨fid, rest, hcf⟩ := create_folder_no_fail fle fol fuf sk n p s
    rcases hrest : rest with ⟨s1, calls1⟩
    rw [hrest] at hcf
    simp only [hcf]
    have hc := upload_count_children fle fol fuf sk cs path fid s1
    rcases hio : upload_children ⟨fle, fol, fuf, fun _ _ => false⟩ sk cs path fid s1
      with ⟨r, s2, t2⟩
    rw [hio] at hc
    simp [hc]

/-- The outcome count over a children list equals the walked file count. -/
theorem upload_count_children (fle fol fuf : String → ℕ → Bool) (sk : Bool) :
    ∀ (cs : List FSEntry) (path : String) (p : ℕ) (s : RemoteState),
      (upload_children ⟨fle, fol, fuf, fun _ _ => false⟩ sk cs path p s).1.success.length +
        (upload_children ⟨fle, fol, fuf, fun _ _ => false⟩ sk cs path p s).1.failed.length +
        (upload_children ⟨fle, fol, fuf, fun _ _ => false⟩ sk cs path p s).1.skipped.length =
        (count_items_list cs).files
  | [], path, p, s => by simp [upload_children, count_items_list]
  | c :: cs, path, p, s => by
    rw [upload_children, count_items_list_cons]
    rcases hio1 : upload_to_drive ⟨fle, fol, fuf, fun _ _ => false⟩ sk c
      (path ++ "/" ++ c.name) p s with ⟨r1, s1, t1⟩
    have h1 := upload_count_tree fle fol fuf sk c (path ++ "/" ++ c.name) p s
    rw [hio1] at h1
    simp only [hio1]
    rcases hio2 : upload_children ⟨fle, fol, fuf, fun _ _ => false⟩ sk cs path p s1
      with ⟨r2, s2, t2⟩
    have h2 := upload_count_children fle fol fuf sk cs path p s1
    rw [hio2] at h2
    simp only [hio2]
    simp only [Results.merge] at h1 h2 ⊢
    simp at h1 h2 ⊢
    omega

end

mutual

/-- Presence of a tree is preserved when the remote state is extended by
appended objects: the first-match lookups keep their results. -/
theorem presentE_mono : ∀ (t : FSEntry) (p : ℕ) {s s' : RemoteState},
    s.ext s' → PresentE t p s → PresentE t p s'
  | .file n sz, p, s, s', hext, hp => by
    rw [PresentE] at hp ⊢
    rcases hfind : s.objects.find? (fun o => o.name == n && o.parent == p) with _ | o
    · rw [hfind] at hp
      simp at hp
    · rw [find?_stable hext _ hfind]
      rfl
  | .dir n cs, p, s, s', hext, hp => by
    rw [PresentE] at hp ⊢
    rcases hfind : s.objects.find? (fun o => o.name == n && o.parent == p && o.isFolder)
      with _ | o
    · rw [hfind] at hp
      exact hp.elim
    · rw [hfind] at hp
      rw [find?_stable hext _ hfind]
      exact presentListE_mono cs o.rid hext hp

/-- List version of presence monotonicity. -/
theorem presentListE_mono : ∀ (cs : List FSEntry) (p : ℕ) {s s' : RemoteState},
    s.ext s' → PresentListE cs p s → PresentListE cs p s'
  | [], _, _, _, _, _ => trivial
  | c :: cs, p, s, s', hext, hp => by
    rw [PresentListE] at hp ⊢
    exact ⟨presentE_mono c p hext hp.1, presentListE_mono cs p hext hp.2⟩

end

mutual

/-- A run of the orchestrator on the reliable remote only appends objects
and leaves the whole tree present under the parent in its final state. -/
theorem upload_establishes : ∀ (t : FSEntry) (path : String) (p : ℕ) (s : RemoteState),
    s.ext (upload_to_drive reliableEnv true t path p s).2.1 ∧
    PresentE t p (upload_to_drive reliableEnv true t path p s).2.1
  | .file n sz, path, p, s => by
    rw [upload_to_drive]
    rw [process_file_reliable_eq]
    rcases hfind : s.objects.find? (fun o => o.name == n && o.parent == p) with _ | o
    · simp only [hfind]
      refine ⟨⟨[(⟨s.nextId, n, p, false⟩ : RemoteObject)], rfl⟩, ?_⟩
      rw [PresentE]
      simp [List.find?_append, hfind, List.find?]
    · simp only [hfind]
      refine ⟨RemoteState.ext_refl s, ?_⟩
      rw [PresentE, hfind]
      rfl
  | .dir n cs, path, p, s => by
    rw [upload_to_drive]
    rw [create_folder_reliable_eq]
    rcases hfind : s.objects.find? (fun o => o.name == n && o.parent == p && o.isFolder)
      with _ | o
    · simp only [hfind]
      have hext1 : s.ext (RemoteState.mk (s.objects ++ [⟨s.nextId, n, p, true⟩])
          (s.nextId + 1)) :=
        ⟨[(⟨s.nextId, n, p, true⟩ : RemoteObject)], rfl⟩
      have hfind1 : (RemoteState.mk (s.objects ++ [⟨s.nextId, n, p, true⟩])
            (s.nextId + 1)).objects.find?
            (fun o => o.name == n && o.parent == p && o.isFolder) =
          some (⟨s.nextId, n, p, true⟩ : RemoteObject) := by
        simp [List.find?_append, hfind, List.find?]
      have hc := upload_children_establishes cs path s.nextId
        ⟨s.objects ++ [⟨s.nextId, n, p, true⟩], s.nextId + 1⟩
      rcases hio : upload_children reliableEnv true cs path s.nextId
        ⟨s.objects ++ [⟨s.nextId, n, p, true⟩], s.nextId + 1⟩ with ⟨r, s2, tr⟩
      rw [hio] at hc
      simp only [hio]
      obtain ⟨hext2, hpl⟩ := hc
      refine ⟨RemoteState.ext_trans hext1 hext2, ?_⟩
      rw [PresentE]
      rw [find?_stable hext2 _ hfind1]
      exact hpl
    · simp only [hfind]
      have hc := upload_children_establishes cs path o.rid s
      rcases hio : upload_children reliableEnv true cs path o.rid s with ⟨r, s2, tr⟩
      rw [hio] at hc
      simp only [hio]
      obtain ⟨hext2, hpl⟩ := hc
      refine ⟨hext2, ?_⟩
      rw [PresentE]
      rw [find?_stable hext2 _ hfind]
      exact hpl

/-- List version: a run over children leaves every child present under the
parent folder id. -/
theorem upload_children_establishes : ∀ (cs : List FSEntry) (path : String) (p : ℕ)
    (s : RemoteState),
    s.ext (upload_children reliableEnv true cs path p s).2.1 ∧
    PresentListE cs p (upload_children reliableEnv true cs path p s).2.1
  | [], path, p, s => by
    rw [upload_children]
    refine ⟨RemoteState.ext_refl s, ?_⟩
    rw [PresentListE]
    trivial
  | c :: cs, path, p, s => by
    rw [upload_children]
    have h1 := upload_establishes c (path ++ "/" ++ c.name) p s
    rcases hio1 : upload_to_drive reliableEnv true c (path ++ "/" ++ c.name) p s
      with ⟨r1, s1, t1⟩
    rw [hio1] at h1
    have h2 := upload_children_establishes cs path p s1
    rcases hio2 : upload_children reliableEnv true cs path p s1 with ⟨r2, s2, t2⟩
    rw [hio2] at h2
    simp only [hio1, hio2]
    obtain ⟨hext1, hp1⟩ := h1
    obtain ⟨hext2, hpl⟩ := h2
    refine ⟨RemoteState.ext_trans hext1 hext2, ?_⟩
    rw [PresentListE]
    exact ⟨presentE_mono c p hext2 hp1, hpl⟩

end

mutual

/-- On a state where the tree is already present, a run of the orchestrator
records every file as skipped, performs no mutation (the state is returned
unchanged) and succeeds or fails nothing. -/
theorem upload_skips : ∀ (t : FSEntry) (path : String) (p : ℕ) (s : RemoteState),
    PresentE t p s →
    (upload_to_drive reliableEnv true t path p s).1 = ⟨[], [], skipPaths t path⟩ ∧
    (upload_to_drive reliableEnv true t path p s).2.1 = s
  | .file n sz, path, p, s, hp => by
    rw [PresentE] at hp
    rw [upload_to_drive, process_file_reliable_eq]
    rcases hfind : s.objects.find? (fun o => o.name == n && o.parent == p) with _ | o
    · rw [hfind] at hp
      simp at hp
    · simp only [hfind]
      refine ⟨?_, trivial⟩
      simp [skipPaths, outcomeResults]
  | .dir n cs, path, p, s, hp => by
    rw [PresentE] at hp
    rcases hfind : s.objects.find? (fun o => o.name == n && o.parent == p && o.isFolder)
      with _ | o
    · rw [hfind] at hp
      exact hp.elim
    · rw [hfind] at hp
      rw [upload_to_drive, create_folder_reliable_eq]
      simp only [hfind]
      have hc := upload_children_skips cs path o.rid s hp
      rcases hio : upload_children reliableEnv true cs path o.rid s with ⟨r, s2, tr⟩
      rw [hio] at hc
      simp only [hio]
      refine ⟨?_, hc.2⟩
      rw [skipPaths]
      exact hc.1

/-- List version of the all-skips run. -/
theorem upload_children_skips : ∀ (cs : List FSEntry) (path : String) (p : ℕ)
    (s : RemoteState), PresentListE cs p s →
    (upload_children reliableEnv true cs path p s).1 = ⟨[], [], skipPathsList cs path⟩ ∧
    (upload_children reliableEnv true cs path p s).2.1 = s
  | [], path, p, s, _ => by
    rw [upload_children]
    refine ⟨?_, rfl⟩
    rw [skipPathsList]
  | c :: cs, path, p, s, hp => by
    rw [PresentListE] at hp
    rw [upload_children]
    have h1 := upload_skips c (path ++ "/" ++ c.name) p s hp.1
    rcases hio1 : upload_to_drive reliableEnv true c (path ++ "/" ++ c.name) p s
      with ⟨r1, s1, t1⟩
    rw [hio1] at h1
    have hs1 : s1 = s := h1.2
    have hr1 : r1 = ⟨[], [], skipPaths c (path ++ "/" ++ c.name)⟩ := h1.1
    have h2 := upload_children_skips cs path p s hp.2
    rcases hio2 : upload_children reliableEnv true cs path p s with ⟨r2, s2, t2⟩
    rw [hio2] at h2
    have hr2 : r2 = ⟨[], [], skipPathsList cs path⟩ := h2.1
    have hs2 : s2 = s := h2.2
    simp only [hio1, hs1, hio2]
    refine ⟨?_, hs2⟩
    rw [hr1, hr2, skipPathsList]
    simp [Results.merge]

end

/-! The claims. -/

/-- C1: the claim says upload_file wraps each chunked upload in a bounded
retry (max 3 attempts, waits of base×2^attempt between attempts). The code
does not: for every input, upload_file issues at most one transfer attempt
and never sleeps, and at the claim's concrete scenario — attempts 1 and 2
would fail, attempt 3 would succeed — it returns a terminal failure after
the single attempt with no backoff waits instead of the claimed success
after two waits. MAX_RETRIES and RETRY_DELAY of config.py are never used. -/
theorem C1_upload_file_single_attempt :
    (∀ (sk : Bool) (ex : Option ℕ) (f : ℕ → Bool) (i : ℕ),
        (upload_file_attempts sk ex f i).2.1 ≤ 1 ∧
        (upload_file_attempts sk ex f i).2.2 = []) ∧
    upload_file_attempts true none (fun i => decide (i < 2)) 7 = (none, 1, []) := by
  constructor
  · intro sk ex f i
    cases sk <;> cases ex <;> simp [upload_file_attempts] <;> split <;> simp
  · rfl

/-- The kwargs of an `upload --dry-run` invocation as handle_upload passes
them: skip_existing on, dry_run on. -/
def kwDryRun : UploadKwargs := ⟨true, false, [], [], true, true⟩

/-- C2: the claim says a dry-run upload performs zero mutating remote
calls. The code ignores the dry_run keyword (upload_to_google_drive reads
only skip_existing and drive_service from kwargs): uploading a single new
file with dry_run set issues the files().create call and adds the object to
the remote state. -/
theorem C2_dry_run_still_mutates :
    (upload_to_google_drive kwDryRun reliableEnv (.file "a.bin" 5) "/x/a.bin" 0
        emptyRemote).2.2 =
      [.listFiles "a.bin" 0, .listFiles "a.bin" 0, .createFileCall "a.bin" 0] ∧
    ((upload_to_google_drive kwDryRun reliableEnv (.file "a.bin" 5) "/x/a.bin" 0
        emptyRemote).2.2.any RemoteCall.isMutating = true) ∧
    (upload_to_google_drive kwDryRun reliableEnv (.file "a.bin" 5) "/x/a.bin" 0
        emptyRemote).2.1 =
      ⟨[⟨0, "a.bin", 0, false⟩], 1⟩ := by
  refine ⟨?_, ?_, ?_⟩ <;>
    simp [upload_to_google_drive, kwDryRun, upload_to_drive, process_file, upload_file,
      file_exists, reliableEnv, emptyRemote, createFileRemote, outcomeResults,
      RemoteCall.isMutating]

/-- The kwargs of an `upload --include "*.mp4"` invocation as handle_upload
passes them. -/
def kwIncludeMp4 : UploadKwargs := ⟨true, false, ["*.mp4"], [], false, true⟩

/-- C3: the claim says that with include=["*.mp4"] over a folder holding
movie.mp4 and notes.txt only movie.mp4 contacts the remote service. The
code ignores the include_patterns keyword (no PatternMatcher exists in the
sources): notes.txt receives dedup lookups and a files().create call like
every other file. -/
theorem C3_include_patterns_ignored :
    (upload_to_google_drive kwIncludeMp4 reliableEnv
        (.dir "d" [.file "movie.mp4" 1, .file "notes.txt" 1]) "/d" 5 emptyRemote).2.2 =
      [.listFolders "d" 5, .createFolderCall "d" 5,
       .listFiles "movie.mp4" 0, .listFiles "movie.mp4" 0, .createFileCall "movie.mp4" 0,
       .listFiles "notes.txt" 0, .listFiles "notes.txt" 0, .createFileCall "notes.txt" 0] ∧
    RemoteCall.createFileCall "notes.txt" 0 ∈
      (upload_to_google_drive kwIncludeMp4 reliableEnv
        (.dir "d" [.file "movie.mp4" 1, .file "notes.txt" 1]) "/d" 5 emptyRemote).2.2 := by
  constructor <;>
    simp [upload_to_google_drive, kwIncludeMp4, upload_to_drive, upload_children,
      process_file, upload_file, file_exists, folder_exists, create_folder, reliableEnv,
      emptyRemote, createFileRemote, createFolderRemote, outcomeResults, FSEntry.name,
      List.find?]

/-- C4: the claim says resume mode consults a Progress Ledger (a path
recorded as success is skipped without calling the Dedup Oracle, the ledger
is updated after every terminal outcome, and the no-resume flag clears the
persisted ledger before uploading). The code has no ledger:
upload_to_google_drive discards the use_progress keyword from **kwargs just
as it discards dry_run, so runs are identical for every value of the flag,
no ledger is ever consulted or updated, and a file a prior run already
uploaded is skipped only AFTER the Dedup Oracle files().list lookup —
never "directly" from a ledger. (handle_upload's no-resume branch would
raise NameError at ProgressTracker().clear(), main.py line 202, since the
importing line 13 is commented out and no such class exists.) -/
theorem C4_resume_flag_ignored :
    (∀ (sk par dr b1 b2 : Bool) (incl excl : List String) (env : DriveEnv)
        (tree : FSEntry) (path : String) (fid : ℕ) (s : RemoteState),
        upload_to_google_drive ⟨sk, par, incl, excl, dr, b1⟩ env tree path fid s =
          upload_to_google_drive ⟨sk, par, incl, excl, dr, b2⟩ env tree path fid s) ∧
    (upload_to_google_drive ⟨true, false, [], [], false, true⟩ reliableEnv
        (.file "a.bin" 5) "/x/a.bin" 7 ⟨[⟨0, "a.bin", 7, false⟩], 1⟩).1 =
      ⟨[], [], ["/x/a.bin"]⟩ ∧
    (upload_to_google_drive ⟨true, false, [], [], false, true⟩ reliableEnv
        (.file "a.bin" 5) "/x/a.bin" 7 ⟨[⟨0, "a.bin", 7, false⟩], 1⟩).2.2 =
      [.listFiles "a.bin" 7] := by
  refine ⟨fun sk par dr b1 b2 incl excl env tree path fid s => rfl, ?_, ?_⟩ <;>
    simp [upload_to_google_drive, upload_to_drive, process_file, file_exists,
      reliableEnv, outcomeResults, List.find?]

/-- A Drive environment on which creating the folder "d" fails. -/
def envFolderDFails : DriveEnv :=
  ⟨fun _ _ => false, fun _ _ => false, fun _ _ => false, fun n _ => n == "d"⟩

/-- C5 counterexample: on a tree of one directory holding two files whose
remote folder creation fails, the orchestrator records a single failed
entry (the directory path), so the outcome count is 1 while count_items
reports 2 files — the claimed equality fails. -/
theorem C5_claim_counterexample :
    ((upload_to_drive envFolderDFails true (.dir "d" [.file "a" 1, .file "b" 1]) "/d" 0
          emptyRemote).1.success.length +
        (upload_to_drive envFolderDFails true (.dir "d" [.file "a" 1, .file "b" 1]) "/d" 0
          emptyRemote).1.failed.length +
        (upload_to_drive envFolderDFails true (.dir "d" [.file "a" 1, .file "b" 1]) "/d" 0
          emptyRemote).1.skipped.length) = 1 ∧
    (count_items (.dir "d" [.file "a" 1, .file "b" 1])).files = 2 := by
  constructor
  · simp [upload_to_drive, upload_children, create_folder, folder_exists, envFolderDFails,
      emptyRemote, createFolderRemote]
  · simp [count_items, count_items_list, ItemStats.add]

/-- C5 amended: for every tree, as long as no remote folder creation fails
during the run (lookup errors and file-upload failures are arbitrary), the
sum of the success, failed and skipped list lengths returned by the
orchestrator equals the file count reported by count_items. -/
theorem C5_outcome_sum_eq_file_count (fle fol fuf : String → ℕ → Bool) (sk : Bool)
    (t : FSEntry) (path : String) (p : ℕ) (s : RemoteState) :
    (upload_to_drive ⟨fle, fol, fuf, fun _ _ => false⟩ sk t path p s).1.success.length +
      (upload_to_drive ⟨fle, fol, fuf, fun _ _ => false⟩ sk t path p s).1.failed.length +
      (upload_to_drive ⟨fle, fol, fuf, fun _ _ => false⟩ sk t path p s).1.skipped.length =
      (count_items t).files :=
  upload_count_tree fle fol fuf sk t path p s

/-- C6: load_session behaves like "no prior session" for an absent file, an
empty file, and a file whose contents the engine rejects (libtorrent's
decode/load_state failures are RuntimeError/ValueError, the kinds the
except clause catches): it returns a fresh session and no exception reaches
the caller. -/
theorem C6_load_session_tolerant (St : Type) (bdecode : List ℕ → Except PyError St) :
    load_session St bdecode none = .ok .fresh ∧
    load_session St bdecode (some []) = .ok .fresh ∧
    (∀ (bs : List ℕ) (e : PyError), bdecode bs = .error e → e ≠ .otherError →
      load_session St bdecode (some bs) = .ok .fresh) := by
  refine ⟨rfl, rfl, fun bs e he hne => ?_⟩
  cases bs with
  | nil => rfl
  | cons b bs' =>
    simp only [load_session, List.isEmpty_cons, he]
    cases e with
    | runtimeError => rfl
    | valueError => rfl
    | otherError => exact absurd rfl hne

/-- C7: after one run of the orchestrator with skip-existing on the
reliable remote, the whole tree is present (every file and folder is found
by the dedup lookup), and a second run over the same local path and remote
parent records every file as a skip (empty success and failed lists) and
creates zero net new remote objects (the state is unchanged). -/
theorem C7_second_run_all_skipped (t : FSEntry) (path : String) (p : ℕ) (s : RemoteState) :
    PresentE t p (upload_to_drive reliableEnv true t path p s).2.1 ∧
    (upload_to_drive reliableEnv true t path p
        ((upload_to_drive reliableEnv true t path p s).2.1)).1 =
      ⟨[], [], skipPaths t path⟩ ∧
    (upload_to_drive reliableEnv true t path p
        ((upload_to_drive reliableEnv true t path p s).2.1)).2.1 =
      (upload_to_drive reliableEnv true t path p s).2.1 := by
  have h := (upload_establishes t path p s).2
  exact ⟨h, (upload_skips t path p _ h).1, (upload_skips t path p _ h).2⟩

/-- C8: the ETA string is "N/A" exactly when the download rate is zero, and
otherwise remaining/rate is formatted in the largest applicable unit:
90 s renders as "1m 30s", 5400 s as "1h 30m", 45 s as "45s", with the unit
boundaries at 60 s and 3600 s. -/
theorem C8_eta_policy :
    (∀ rate tw td, eta_string rate tw td = "N/A" ↔ rate = 0) ∧
    eta_string 1 90 0 = "1m 30s" ∧
    eta_string 1 5400 0 = "1h 30m" ∧
    eta_string 2 90 0 = "45s" ∧
    eta_string 1 59 0 = "59s" ∧
    eta_string 1 3599 0 = "59m 59s" ∧
    eta_string 1 3600 0 = "1h 0m" := by
  refine ⟨fun rate tw td => ⟨fun h => ?_, fun h => by simp [eta_string, h]⟩,
    rfl, rfl, rfl, rfl, rfl, rfl⟩
  by_contra hr
  have hpos : rate > 0 := Nat.pos_of_ne_zero hr
  rw [eta_string, if_pos hpos] at h
  dsimp only at h
  split_ifs at h with h1 h2
  · exact ends_s_ne_NA _ h
  · exact ends_s_ne_NA _ h
  · exact ends_m_ne_NA _ h

/-- C9: download_torrent returns None without adding anything to the
session when the source is neither magnet-prefixed nor .torrent-suffixed,
and likewise when it is a .torrent path that does not exist on disk. -/
theorem C9_source_validation (env : TorrentEnv) (itr : InterruptAt)
    (source dp : String) (hmag : strStartsWith source "magnet:" = false) :
    (strEndsWith source ".torrent" = false →
        download_torrent env itr source dp = ⟨.failed, false, 0⟩) ∧
    (env.fileOnDisk source = false →
        download_torrent env itr source dp = ⟨.failed, false, 0⟩) := by
  constructor
  · intro ht
    simp [download_torrent, hmag, ht]
  · intro hf
    rw [download_torrent]
    rw [hmag]
    by_cases ht : strEndsWith source ".torrent" <;> simp [ht, hf]

/-- A torrent environment where no file exists on disk. -/
def envNoFile : TorrentEnv := ⟨fun _ => false, fun _ => true, true, "t", 3, 0⟩

/-- Witness for C9: an invalid source ("doc.pdf") and a missing .torrent
path both return the failure with nothing added. -/
theorem C9_source_validation_witness :
    strStartsWith "doc.pdf" "magnet:" = false ∧
    download_torrent envNoFile .never "doc.pdf" "downloads" = ⟨.failed, false, 0⟩ ∧
    download_torrent envNoFile .never "missing.torrent" "downloads" = ⟨.failed, false, 0⟩ :=
  ⟨by decide,
   (C9_source_validation envNoFile .never "doc.pdf" "downloads" (by decide)).1 (by decide),
   (C9_source_validation envNoFile .never "missing.torrent" "downloads" (by decide)).2 rfl⟩

/-- C10: a KeyboardInterrupt during the wait-for-metadata loop propagates
out of download_torrent with the session never saved, while an interrupt
during polling iteration k of the transfer loop is caught, saves the
session (once, after the k completed iterations' periodic saves) and
returns None. -/
theorem C10_interrupt_phases (fod pok : String → Bool) (nm dp : String)
    (pt e0 k : ℕ) (hk : k < pt) :
    download_torrent ⟨fod, pok, true, nm, pt, e0⟩ .duringMetadataWait "magnet:x" dp =
      ⟨.raisedInterrupt, true, 0⟩ ∧
    download_torrent ⟨fod, pok, true, nm, pt, e0⟩ (.duringPolling k) "magnet:x" dp =
      ⟨.paused, true, periodicSaves e0 k + 1⟩ := by
  have hm : strStartsWith "magnet:x" "magnet:" = true := by decide
  constructor <;> simp [download_torrent, hm, awaitAndPoll, hk]

/-- Witness for C10 at a concrete environment: polling interrupt at
iteration 0 of 3. -/
theorem C10_interrupt_phases_witness :
    (0 : ℕ) < 3 ∧
    download_torrent ⟨fun _ => true, fun _ => true, true, "t", 3, 0⟩ .duringMetadataWait
      "magnet:x" "downloads" = ⟨.raisedInterrupt, true, 0⟩ ∧
    download_torrent ⟨fun _ => true, fun _ => true, true, "t", 3, 0⟩ (.duringPolling 0)
      "magnet:x" "downloads" = ⟨.paused, true, periodicSaves 0 0 + 1⟩ :=
  ⟨by decide,
   (C10_interrupt_phases (fun _ => true) (fun _ => true) "t" "downloads" 3 0 0 (by decide)).1,
   (C10_interrupt_phases (fun _ => true) (fun _ => true) "t" "downloads" 3 0 0 (by decide)).2⟩

end SeedUp
